import Mathlib

/-!
# NotesFlow backend — shallow embedding

A shallow embedding of `src/server.js` (an Express + Mongoose note-taking
service) and proofs about its credential / session-authorization core.

Modelling conventions:
* MongoDB ObjectIds are `Nat`, handed out by per-collection counters.
* Wall-clock time is a `Nat` of seconds, passed explicitly (`now`).
* `bcrypt.hash` is modelled as a constructor pairing the salt with the
  plaintext; `bcrypt.compare` checks the plaintext against it.  This captures
  exactly the algebra the code relies on: `compare p (hash q s) = (p == q)`.
* A JWT is either a well-formed token (payload + the secret it was signed
  with) or an arbitrary malformed string.  `jwt.verify` rejects a malformed
  token or a wrong secret with a `JsonWebTokenError`, and an elapsed expiry
  with a `TokenExpiredError` — mirroring the `jsonwebtoken` library, where
  the two failures carry different `err.name` values.
* Each Express handler becomes a pure function from the server state and the
  request pieces it reads to a `Response` (status + JSON body) and the new
  state.  Handlers that never write state return just a `Response`.
-/

namespace NotesFlow

/-- `JWT_SECRET` — process-wide signing secret (default value from server.js). -/
def JWT_SECRET : String := "notesflow_secret"

/-- A bcrypt stored secret: the salt together with the hashed plaintext. -/
structure StoredHash where
  salt : Nat
  plain : String
deriving DecidableEq, Repr

/-- `hashPassword` (server.js 55–58): bcrypt-hash a plaintext with a fresh salt. -/
def hashPassword (password : String) (salt : Nat) : StoredHash :=
  ⟨salt, password⟩

/-- `comparePassword` (server.js 60–62): bcrypt comparison of a plaintext
against a stored hash. -/
def comparePassword (password : String) (h : StoredHash) : Bool :=
  password == h.plain

/-- A JWT claim set as this server uses it: optional `id` and `email`
claims plus an absolute expiry (`exp`). -/
structure JwtPayload where
  id : Option Nat
  email : Option String
  exp : Nat
deriving DecidableEq, Repr

/-- A bearer token: a well-formed JWT (payload and signing secret),
or an arbitrary malformed string. -/
inductive Token where
  | signed (payload : JwtPayload) (secret : String)
  | malformed (raw : String)
deriving DecidableEq, Repr

/-- The `err.name` of the error `jwt.verify` throws: `"JsonWebTokenError"`
for a malformed token or a bad signature, `"TokenExpiredError"` for an
elapsed expiry. -/
inductive JwtErrorName where
  | jsonWebTokenError
  | tokenExpiredError
deriving DecidableEq, Repr

/-- `jwt.sign(claims, secret, \x7bexpiresIn\x7d)`: absolute expiry is `now + ttl`. -/
def jwtSign (id : Option Nat) (email : Option String) (secret : String)
    (ttl now : Nat) : Token :=
  .signed ⟨id, email, now + ttl⟩ secret

/-- `jwt.verify(token, secret)` at wall-clock `now`: structural check, then
signature, then expiry (expired once `now` reaches `exp`). -/
def jwtVerify (t : Token) (secret : String) (now : Nat) :
    Except JwtErrorName JwtPayload :=
  match t with
  | .malformed _ => .error .jsonWebTokenError
  | .signed p s =>
    if s ≠ secret then .error .jsonWebTokenError
    else if p.exp ≤ now then .error .tokenExpiredError
    else .ok p

/-- `expiresIn: "7d"` in seconds. -/
def sevenDays : Nat := 7 * 24 * 60 * 60

/-- `expiresIn: "1h"` in seconds. -/
def oneHour : Nat := 60 * 60

/-- A `User` document (server.js 23–26). -/
structure User where
  _id : Nat
  email : String
  password : StoredHash
deriving DecidableEq, Repr

/-- A `Note` document (server.js 28–33).  `title` and `content` are not
`required` in the schema, so they may be unset (`none`). -/
structure Note where
  _id : Nat
  title : Option String
  content : Option String
  owner : Nat
  createdAt : Nat
deriving DecidableEq, Repr

/-- The MongoDB state: both collections in insertion order, plus the
counters modelling ObjectId assignment. -/
structure ServerState where
  users : List User
  notes : List Note
  nextUserId : Nat
  nextNoteId : Nat
deriving DecidableEq, Repr

/-- JavaScript truthiness of an optional string body field: falsy when the
field is absent or the empty string. -/
def isTruthy : Option String → Bool
  | none => false
  | some s => s ≠ ""

/-- A JSON response body, one constructor per body shape the handlers emit. -/
inductive Body where
  | msg (message : String)
  | authUser (token : Token) (id : Nat) (email : String)
  | note (n : Note)
  | notes (ns : List Note)
deriving DecidableEq, Repr

/-- An HTTP response: status code and JSON body. -/
structure Response where
  status : Nat
  body : Body
deriving DecidableEq, Repr

/-- The identity the gate binds into `req.user` on success. -/
structure AuthCtx where
  id : Option Nat
  email : Option String
deriving DecidableEq, Repr

/-- The `Authorization` header as the middleware discriminates it:
absent, present but not of the shape `Bearer <token>`, or a bearer token. -/
inductive AuthHeader where
  | absent
  | notBearer (raw : String)
  | bearer (token : Token)
deriving DecidableEq, Repr

/-- `authMiddleware` (server.js 65–77): reject an absent or non-Bearer
header with 401 "Unauthorized"; otherwise `jwt.verify` the token, rejecting
any verification failure with 401 "Invalid token", and on success bind
`\x7bid, email\x7d` from the decoded payload. -/
def authMiddleware (h : AuthHeader) (now : Nat) : Except Response AuthCtx :=
  match h with
  | .absent => .error ⟨401, .msg "Unauthorized"⟩
  | .notBearer _ => .error ⟨401, .msg "Unauthorized"⟩
  | .bearer t =>
    match jwtVerify t JWT_SECRET now with
    | .error _ => .error ⟨401, .msg "Invalid token"⟩
    | .ok d => .ok ⟨d.id, d.email⟩

/-- `User.findOne(\x7bemail\x7d)`. -/
def findUserByEmail (st : ServerState) (e : String) : Option User :=
  st.users.find? (fun u => u.email == e)

/-- `User.findById(id)`: `none` when the id claim itself is absent. -/
def findUserById (st : ServerState) (i : Option Nat) : Option User :=
  match i with
  | none => none
  | some i => st.users.find? (fun u => u._id == i)

/-- `generateToken` (server.js 49–53): a session token with claims
`\x7bid, email\x7d` and a 7-day expiry. -/
def generateToken (u : User) (now : Nat) : Token :=
  jwtSign (some u._id) (some u.email) JWT_SECRET sevenDays now

/-- `POST /api/auth/register` (server.js 85–100). -/
def register (st : ServerState) (email password : Option String)
    (salt now : Nat) : Response × ServerState :=
  if !(isTruthy email) || !(isTruthy password) then
    (⟨400, .msg "Email and password required"⟩, st)
  else
    match findUserByEmail st (email.getD "") with
    | some _ => (⟨409, .msg "User already exists"⟩, st)
    | none =>
      let hashed := hashPassword (password.getD "") salt
      let user : User := ⟨st.nextUserId, email.getD "", hashed⟩
      let st' := { st with users := st.users ++ [user],
                           nextUserId := st.nextUserId + 1 }
      (⟨201, .authUser (generateToken user now) user._id user.email⟩, st')

/-- `POST /api/auth/login` (server.js 103–117).  Never writes state. -/
def login (st : ServerState) (email password : Option String) (now : Nat) :
    Response :=
  if !(isTruthy email) || !(isTruthy password) then
    ⟨400, .msg "Email and password required"⟩
  else
    match findUserByEmail st (email.getD "") with
    | none => ⟨401, .msg "Invalid credentials"⟩
    | some user =>
      if !(comparePassword (password.getD "") user.password) then
        ⟨401, .msg "Invalid credentials"⟩
      else
        ⟨200, .authUser (generateToken user now) user._id user.email⟩

/-- `POST /api/auth/forgot-password` (server.js 120–146).  Returns the
response together with the reset token issued (logged to the console in the
source; `none` when no user matched or the email was missing). -/
def forgotPassword (st : ServerState) (email : Option String) (now : Nat) :
    Response × Option Token :=
  if !(isTruthy email) then (⟨400, .msg "Email required"⟩, none)
  else
    match findUserByEmail st (email.getD "") with
    | none => (⟨200, .msg "If the email exists, instructions will be sent"⟩, none)
    | some user =>
      let resetToken := jwtSign (some user._id) none JWT_SECRET oneHour now
      (⟨200, .msg "If the email exists, instructions will be sent"⟩,
       some resetToken)

/-- `POST /api/auth/reset-password` (server.js 149–174).  On a
`jwt.verify` failure the catch block returns 401 only when
`err.name === "JsonWebTokenError"`; any other error (in particular a
`TokenExpiredError`) falls through to 500. -/
def resetPassword (st : ServerState) (token : Option Token)
    (password : Option String) (salt now : Nat) : Response × ServerState :=
  if token.isNone || !(isTruthy password) then
    (⟨400, .msg "Token and password required"⟩, st)
  else
    match jwtVerify (token.getD (.malformed "")) JWT_SECRET now with
    | .error e =>
      if e = .jsonWebTokenError then
        (⟨401, .msg "Invalid or expired token"⟩, st)
      else
        (⟨500, .msg "Could not reset password"⟩, st)
    | .ok decoded =>
      match findUserById st decoded.id with
      | none => (⟨404, .msg "User not found"⟩, st)
      | some user =>
        let hashed := hashPassword (password.getD "") salt
        let st' := { st with users := st.users.map (fun u =>
          if u._id == user._id then { u with password := hashed } else u) }
        (⟨200, .msg "Password updated successfully"⟩, st')

/-- Newest-first order on notes: `a` before `b` when `b` was created no
later than `a` (the `sort(\x7bcreatedAt: -1\x7d)` key order). -/
def noteGE (a b : Note) : Prop := b.createdAt ≤ a.createdAt

instance : DecidableRel noteGE := fun a b => Nat.decLe b.createdAt a.createdAt

instance : IsTotal Note noteGE :=
  ⟨fun a b => Nat.le_total b.createdAt a.createdAt⟩

instance : IsTrans Note noteGE :=
  ⟨fun _ _ _ hab hbc => Nat.le_trans hbc hab⟩

/-- `GET /api/notes` (server.js 187–196): the caller's notes, sorted by
`createdAt` descending. -/
def listNotes (st : ServerState) (uid : Nat) : List Note :=
  List.insertionSort noteGE (st.notes.filter (fun n => n.owner == uid))

/-- `POST /api/notes` (server.js 198–209). -/
def createNote (st : ServerState) (uid : Nat) (title content : Option String)
    (now : Nat) : Response × ServerState :=
  if !(isTruthy title) || !(isTruthy content) then
    (⟨400, .msg "Title and content required"⟩, st)
  else
    let note : Note := ⟨st.nextNoteId, title, content, uid, now⟩
    (⟨201, .note note⟩,
     { st with notes := st.notes ++ [note], nextNoteId := st.nextNoteId + 1 })

/-- `Note.findOne(\x7b_id: noteId, owner: uid\x7d)` — the compound
ownership-filtered lookup. -/
def findNote (st : ServerState) (noteId uid : Nat) : Option Note :=
  st.notes.find? (fun n => n._id == noteId && n.owner == uid)

/-- `PUT /api/notes/:id` (server.js 211–224): compound-filtered lookup,
404 on miss; otherwise overwrite `title` and `content` from the body
(unvalidated) and save the document back by its `_id`. -/
def updateNote (st : ServerState) (uid noteId : Nat)
    (title content : Option String) : Response × ServerState :=
  match findNote st noteId uid with
  | none => (⟨404, .msg "Note not found"⟩, st)
  | some n =>
    let n' := { n with title := title, content := content }
    (⟨200, .note n'⟩,
     { st with notes := st.notes.map (fun m => if m._id == n._id then n' else m) })

/-- `DELETE /api/notes/:id` (server.js 226–238):
`Note.findOneAndDelete(\x7b_id: noteId, owner: uid\x7d)`. -/
def deleteNote (st : ServerState) (uid noteId : Nat) : Response × ServerState :=
  match findNote st noteId uid with
  | none => (⟨404, .msg "Note not found"⟩, st)
  | some _ =>
    (⟨200, .msg "Note deleted successfully"⟩,
     { st with notes := st.notes.eraseP (fun n => n._id == noteId && n.owner == uid) })

/-- Boolean check that a list of notes is in strictly descending
creation-time order. -/
def strictlyDescB : List Note → Bool
  | [] => true
  | [_] => true
  | a :: b :: t => (b.createdAt < a.createdAt) && strictlyDescB (b :: t)

/-! ## Concrete fixtures -/

/-- A registered user with id 0. -/
def user0 : User := ⟨0, "alice@example.com", hashPassword "pw0" 1⟩

/-- A state holding just `user0` and no notes. -/
def st1 : ServerState := ⟨[user0], [], 1, 0⟩

/-- The reset token `forgot-password` issues for `user0` at time 0:
claims `\x7bid: 0\x7d` only, expiry `0 + 1h`. -/
def resetTok0 : Token := .signed ⟨some 0, none, 3600⟩ JWT_SECRET

/-! ## C1 — reset tokens at the Authentication Gate -/

/-- C1 counterexample: the reset token issued for `user0` by the
forgot-password flow, presented as a bearer session credential at time 100,
is ACCEPTED by the Authentication Gate: the gate binds an authenticated
identity (id 0, no email) from it, so the protected operation proceeds —
refuting the claim that such a token is always rejected. -/
theorem C1_counterexample :
    (forgotPassword st1 (some "alice@example.com") 0).2 = some resetTok0 ∧
    authMiddleware (.bearer resetTok0) 100 = .ok ⟨some 0, none⟩ :=
  ⟨rfl, rfl⟩

/-- C1 (amended): the Authentication Gate does NOT reject reset tokens:
for every identity the forgot-password flow issues a token for, presenting
that token as a bearer session credential any time before its one-hour
expiry passes the gate, which binds `\x7bid := identity-id, email := none\x7d`
and lets the protected operation proceed.  The gate checks only signature
and expiry, never the claim set. -/
theorem C1_reset_token_accepted_by_gate
    (st : ServerState) (e : String) (u : User) (now now2 : Nat)
    (he : e ≠ "")
    (hu : findUserByEmail st e = some u)
    (hnow : now2 < now + oneHour) :
    (forgotPassword st (some e) now).2
      = some (Token.signed ⟨some u._id, none, now + oneHour⟩ JWT_SECRET) ∧
    authMiddleware
      (.bearer (.signed ⟨some u._id, none, now + oneHour⟩ JWT_SECRET)) now2
      = .ok ⟨some u._id, none⟩ := by
  refine ⟨?_, ?_⟩
  · simp [forgotPassword, isTruthy, he, hu, jwtSign]
  · simp [authMiddleware, jwtVerify, JWT_SECRET, Nat.not_le.mpr hnow]

/-- Witness for C1 (amended) at `st1`, `user0`, issue time 0, use time 100. -/
theorem C1_witness :
    (forgotPassword st1 (some "alice@example.com") 0).2
      = some (Token.signed ⟨some user0._id, none, 0 + oneHour⟩ JWT_SECRET) ∧
    authMiddleware
      (.bearer (.signed ⟨some user0._id, none, 0 + oneHour⟩ JWT_SECRET)) 100
      = .ok ⟨some user0._id, none⟩ :=
  C1_reset_token_accepted_by_gate st1 "alice@example.com" user0 0 100
    (by decide) rfl (by decide)

/-! ## C2 — expired reset token at complete-reset -/

/-- C2: evaluating the complete-reset handler at a well-formed, correctly
signed but expired reset token (issued for `user0` at time 0 with a one-hour
expiry, presented at time 4000): `jwt.verify` raises `TokenExpiredError`,
whose `name` is not `"JsonWebTokenError"`, so the handler's catch block
falls through to 500 "Could not reset password" — not the 401 the spec
requires for an expired token. -/
theorem C2_expired_reset_token_returns_500 :
    resetPassword st1 (some resetTok0) (some "newpw") 2 4000
      = (⟨500, .msg "Could not reset password"⟩, st1) :=
  rfl

/-! ## C6 — uniformity of Authentication Gate failures -/

/-- C6 counterexample: an absent Authorization header and a failed token
validation both yield 401 but with DIFFERENT bodies ("Unauthorized" vs
"Invalid token"), so not all gate failure causes produce the same observable
response — the response leaks whether the header shape or the token
validation failed. -/
theorem C6_counterexample :
    authMiddleware .absent 0 = .error ⟨401, .msg "Unauthorized"⟩ ∧
    authMiddleware (.bearer (.malformed "junk")) 0
      = .error ⟨401, .msg "Invalid token"⟩ ∧
    (⟨401, Body.msg "Unauthorized"⟩ : Response) ≠ ⟨401, .msg "Invalid token"⟩ :=
  ⟨rfl, rfl, by decide⟩

/-- C6 (amended): every Authentication Gate failure has status 401, but the
body identifies the failure class: an absent or non-Bearer header yields
"Unauthorized", while any token-validation failure yields "Invalid token"
(the gate is uniform within each class, not across the two classes). -/
theorem C6_gate_failure_status_401_two_bodies
    (h : AuthHeader) (now : Nat) (r : Response)
    (hfail : authMiddleware h now = .error r) :
    r.status = 401 ∧
    ((h = .absent ∨ ∃ s, h = .notBearer s) → r = ⟨401, .msg "Unauthorized"⟩) ∧
    ((∃ t, h = .bearer t) → r = ⟨401, .msg "Invalid token"⟩) := by
  cases h with
  | absent =>
    simp only [authMiddleware, Except.error.injEq] at hfail
    subst hfail
    exact ⟨rfl, fun _ => rfl, by rintro ⟨t, ht⟩; cases ht⟩
  | notBearer s =>
    simp only [authMiddleware, Except.error.injEq] at hfail
    subst hfail
    exact ⟨rfl, fun _ => rfl, by rintro ⟨t, ht⟩; cases ht⟩
  | bearer t =>
    simp only [authMiddleware] at hfail
    cases hv : jwtVerify t JWT_SECRET now with
    | error e =>
      rw [hv] at hfail
      simp only [Except.error.injEq] at hfail
      subst hfail
      refine ⟨rfl, ?_, fun _ => rfl⟩
      rintro (h1 | ⟨s, h2⟩) <;> simp_all
    | ok d =>
      rw [hv] at hfail
      cases hfail

/-- Witness for C6 (amended) at an absent header. -/
theorem C6_witness :
    (⟨401, Body.msg "Unauthorized"⟩ : Response).status = 401 ∧
    ((AuthHeader.absent = .absent ∨ ∃ s, AuthHeader.absent = .notBearer s) →
      (⟨401, Body.msg "Unauthorized"⟩ : Response) = ⟨401, .msg "Unauthorized"⟩) ∧
    ((∃ t, AuthHeader.absent = .bearer t) →
      (⟨401, Body.msg "Unauthorized"⟩ : Response) = ⟨401, .msg "Invalid token"⟩) :=
  C6_gate_failure_status_401_two_bodies .absent 0 ⟨401, .msg "Unauthorized"⟩ rfl

/-! ## C3 — ownership isolation of update/delete -/

/-- C3: ownership isolation.  If every note bearing identifier `noteId`
is owned by identity `A`, then identity `B ≠ A` calling update or delete on
`noteId` gets 404 "Note not found" (never the note's data) and the state —
in particular A's note — is unchanged: the compound
`\x7b_id, owner\x7d` filter finds nothing for `B`. -/
theorem C3_ownership_isolation
    (st : ServerState) (A B noteId : Nat) (title content : Option String)
    (hAB : A ≠ B)
    (hOwn : ∀ m ∈ st.notes, m._id = noteId → m.owner = A) :
    updateNote st B noteId title content = (⟨404, .msg "Note not found"⟩, st) ∧
    deleteNote st B noteId = (⟨404, .msg "Note not found"⟩, st) := by
  have hfind : findNote st noteId B = none := by
    apply List.find?_eq_none.mpr
    intro n hn
    simp only [Bool.and_eq_true, beq_iff_eq, not_and]
    intro h1 h2
    exact hAB ((hOwn n hn h1) ▸ h2)
  exact ⟨by simp [updateNote, hfind], by simp [deleteNote, hfind]⟩

/-- A store where identity 0 owns note 5 (for the C3 witness). -/
def stC3 : ServerState := ⟨[], [⟨5, some "t", some "c", 0, 10⟩], 0, 6⟩

/-- Witness for C3: identity 1 updating/deleting identity 0's note 5. -/
theorem C3_witness :
    updateNote stC3 1 5 (some "x") (some "y")
      = (⟨404, .msg "Note not found"⟩, stC3) ∧
    deleteNote stC3 1 5 = (⟨404, .msg "Note not found"⟩, stC3) :=
  C3_ownership_isolation stC3 0 1 5 (some "x") (some "y")
    (by decide) (by decide)

/-! ## C4 — login gives no account-existence signal -/

/-- C4: a login against a nonexistent email and a login against an existing
email with a wrong password both return exactly
`401 \x7bmessage: "Invalid credentials"\x7d` — identical status and body,
so the two cases are indistinguishable to the caller. -/
theorem C4_login_no_existence_signal
    (st : ServerState) (e1 p1 e2 p2 : String) (u : User) (now1 now2 : Nat)
    (he1 : e1 ≠ "") (hp1 : p1 ≠ "") (he2 : e2 ≠ "") (hp2 : p2 ≠ "")
    (hmiss : findUserByEmail st e1 = none)
    (hfound : findUserByEmail st e2 = some u)
    (hwrong : comparePassword p2 u.password = false) :
    login st (some e1) (some p1) now1 = ⟨401, .msg "Invalid credentials"⟩ ∧
    login st (some e2) (some p2) now2 = ⟨401, .msg "Invalid credentials"⟩ := by
  constructor
  · simp [login, isTruthy, he1, hp1, hmiss]
  · simp [login, isTruthy, he2, hp2, hfound, hwrong]

/-- Witness for C4: wrong password for `user0` vs unknown email, on `st1`. -/
theorem C4_witness :
    login st1 (some "bob@example.com") (some "guess") 3
      = ⟨401, .msg "Invalid credentials"⟩ ∧
    login st1 (some "alice@example.com") (some "wrong") 4
      = ⟨401, .msg "Invalid credentials"⟩ :=
  C4_login_no_existence_signal st1 "bob@example.com" "guess"
    "alice@example.com" "wrong" user0 3 4
    (by decide) (by decide) (by decide) (by decide) rfl rfl rfl

/-! ## C10 — update performs no input validation -/

/-- C10: unlike create, the note update handler validates nothing: on an
owned note, an update whose body omits `title`/`content` (or supplies empty
strings) is not rejected with 400 — it returns 200 and overwrites the
note's fields with the missing/empty values; while `create` with the same
bodies returns 400 "Title and content required". -/
theorem C10_update_skips_validation
    (st : ServerState) (uid noteId now : Nat) (n : Note)
    (hfind : findNote st noteId uid = some n) :
    (updateNote st uid noteId none none).1
      = ⟨200, .note { n with title := none, content := none }⟩ ∧
    (updateNote st uid noteId (some "") (some "")).1
      = ⟨200, .note { n with title := some "", content := some "" }⟩ ∧
    createNote st uid none none now
      = (⟨400, .msg "Title and content required"⟩, st) ∧
    createNote st uid (some "") (some "") now
      = (⟨400, .msg "Title and content required"⟩, st) := by
  refine ⟨?_, ?_, ?_, ?_⟩ <;> simp [updateNote, createNote, isTruthy, hfind]

/-- Witness for C10 on `stC3` (identity 0's note 5), at time 11. -/
theorem C10_witness :
    (updateNote stC3 0 5 none none).1
      = ⟨200, .note { _id := 5, title := none, content := none,
                      owner := 0, createdAt := 10 }⟩ ∧
    (updateNote stC3 0 5 (some "") (some "")).1
      = ⟨200, .note { _id := 5, title := some "", content := some "",
                      owner := 0, createdAt := 10 }⟩ ∧
    createNote stC3 0 none none 11
      = (⟨400, .msg "Title and content required"⟩, stC3) ∧
    createNote stC3 0 (some "") (some "") 11
      = (⟨400, .msg "Title and content required"⟩, stC3) :=
  C10_update_skips_validation stC3 0 5 11
    ⟨5, some "t", some "c", 0, 10⟩ rfl

/-! ## C7 / C8 — register / login round trip and email uniqueness -/

/-- After a fresh registration of email `e`, looking `e` up finds exactly the
newly created user (appended after the existing users, none of which has
email `e`). -/
theorem findUserByEmail_after_register
    (st : ServerState) (e p : String) (salt now : Nat)
    (he : e ≠ "") (hp : p ≠ "")
    (hnew : findUserByEmail st e = none) :
    findUserByEmail (register st (some e) (some p) salt now).2 e
      = some ⟨st.nextUserId, e, hashPassword p salt⟩ := by
  unfold findUserByEmail at hnew ⊢
  simp [register, isTruthy, he, hp, findUserByEmail, hnew, List.find?_append]

/-- C7: starting from a state where `e` is unregistered, `register e p`
returns 201 with a session token for the new identity `st.nextUserId`; a
subsequent `login e p` on the resulting state returns 200 with a token
whose claims carry that same identity id, and validating that token before
its 7-day expiry yields the same identity id that register created. -/
theorem C7_register_then_login_roundtrip
    (st : ServerState) (e p : String) (salt now now2 now3 : Nat)
    (he : e ≠ "") (hp : p ≠ "")
    (hnew : findUserByEmail st e = none)
    (hfresh : now3 < now2 + sevenDays) :
    (register st (some e) (some p) salt now).1
      = ⟨201, .authUser (.signed ⟨some st.nextUserId, some e, now + sevenDays⟩
          JWT_SECRET) st.nextUserId e⟩ ∧
    login (register st (some e) (some p) salt now).2 (some e) (some p) now2
      = ⟨200, .authUser (.signed ⟨some st.nextUserId, some e, now2 + sevenDays⟩
          JWT_SECRET) st.nextUserId e⟩ ∧
    jwtVerify (.signed ⟨some st.nextUserId, some e, now2 + sevenDays⟩ JWT_SECRET)
        JWT_SECRET now3
      = .ok ⟨some st.nextUserId, some e, now2 + sevenDays⟩ := by
  refine ⟨?_, ?_, ?_⟩
  · simp [register, isTruthy, he, hp, hnew, generateToken, jwtSign]
  · have happ := findUserByEmail_after_register st e p salt now he hp hnew
    simp [login, isTruthy, he, hp, happ, comparePassword, hashPassword,
      generateToken, jwtSign]
  · simp [jwtVerify, Nat.not_le.mpr hfresh]

/-- An empty server state. -/
def st0 : ServerState := ⟨[], [], 0, 0⟩

/-- Witness for C7: register then login on the empty state. -/
theorem C7_witness :
    (register st0 (some "alice@example.com") (some "pw0") 1 0).1
      = ⟨201, .authUser (.signed ⟨some st0.nextUserId, some "alice@example.com",
          0 + sevenDays⟩ JWT_SECRET) st0.nextUserId "alice@example.com"⟩ ∧
    login (register st0 (some "alice@example.com") (some "pw0") 1 0).2
        (some "alice@example.com") (some "pw0") 10
      = ⟨200, .authUser (.signed ⟨some st0.nextUserId, some "alice@example.com",
          10 + sevenDays⟩ JWT_SECRET) st0.nextUserId "alice@example.com"⟩ ∧
    jwtVerify (.signed ⟨some st0.nextUserId, some "alice@example.com",
        10 + sevenDays⟩ JWT_SECRET) JWT_SECRET 20
      = .ok ⟨some st0.nextUserId, some "alice@example.com", 10 + sevenDays⟩ :=
  C7_register_then_login_roundtrip st0 "alice@example.com" "pw0" 1 0 10 20
    (by decide) (by decide) rfl (by decide)

/-- C8: after a successful registration of `e`, a second registration of
`e` returns 409 "User already exists" and leaves the state untouched, and
the store holds exactly one identity with email `e`. -/
theorem C8_duplicate_email_conflict
    (st : ServerState) (e p p2 : String) (salt now salt2 now2 : Nat)
    (he : e ≠ "") (hp : p ≠ "") (hp2 : p2 ≠ "")
    (hnew : findUserByEmail st e = none) :
    register (register st (some e) (some p) salt now).2 (some e) (some p2)
        salt2 now2
      = (⟨409, .msg "User already exists"⟩,
         (register st (some e) (some p) salt now).2) ∧
    (((register st (some e) (some p) salt now).2).users.filter
        (fun u => u.email == e)).length = 1 := by
  have happ := findUserByEmail_after_register st e p salt now he hp hnew
  constructor
  · have h409 : ∀ st2 : ServerState,
        findUserByEmail st2 e
          = some ⟨st.nextUserId, e, hashPassword p salt⟩ →
        register st2 (some e) (some p2) salt2 now2
          = (⟨409, .msg "User already exists"⟩, st2) := by
      intro st2 h2
      simp [register, isTruthy, he, hp2, h2]
    exact h409 _ happ
  · have husers : ((register st (some e) (some p) salt now).2).users
        = st.users ++ [⟨st.nextUserId, e, hashPassword p salt⟩] := by
      simp [register, isTruthy, he, hp, hnew]
    have hnone : ∀ u ∈ st.users, ¬(u.email == e) :=
      List.find?_eq_none.mp hnew
    rw [husers, List.filter_append, List.filter_eq_nil_iff.mpr hnone]
    simp

/-- Witness for C8: double registration on the empty state. -/
theorem C8_witness :
    register (register st0 (some "alice@example.com") (some "pw0") 1 0).2
        (some "alice@example.com") (some "pw1") 2 5
      = (⟨409, .msg "User already exists"⟩,
         (register st0 (some "alice@example.com") (some "pw0") 1 0).2) ∧
    (((register st0 (some "alice@example.com") (some "pw0") 1 0).2).users.filter
        (fun u => u.email == "alice@example.com")).length = 1 :=
  C8_duplicate_email_conflict st0 "alice@example.com" "pw0" "pw1" 1 0 2 5
    (by decide) (by decide) (by decide) rfl

/-! ## C5 — reset-token replay -/

/-- A complete-reset call with an unexpired, correctly signed reset token for
an existing user succeeds and replaces that user's stored secret. -/
theorem resetPassword_success
    (st : ServerState) (uid exp salt now : Nat) (p : String) (u : User)
    (hp : p ≠ "") (hu : findUserById st (some uid) = some u) (h : now < exp) :
    resetPassword st (some (.signed ⟨some uid, none, exp⟩ JWT_SECRET))
        (some p) salt now
      = (⟨200, .msg "Password updated successfully"⟩,
         { st with users := st.users.map (fun v =>
             if v._id == u._id then { v with password := hashPassword p salt }
             else v) }) := by
  simp [resetPassword, isTruthy, hp, jwtVerify, Nat.not_le.mpr h, hu]

/-- Replacing a user's password leaves the user findable by the same id. -/
theorem findUserById_after_reset
    (st : ServerState) (uid : Nat) (u : User) (hashed : StoredHash)
    (hu : findUserById st (some uid) = some u) :
    findUserById { st with users := st.users.map (fun v =>
        if v._id == u._id then { v with password := hashed } else v) }
      (some uid)
      = some { u with password := hashed } := by
  have hfind : st.users.find? (fun v => v._id == uid) = some u := hu
  unfold findUserById
  dsimp only
  rw [List.find?_map]
  have hpred : ((fun v : User => v._id == uid) ∘ (fun v =>
      if v._id == u._id then { v with password := hashed } else v))
      = (fun v : User => v._id == uid) := by
    funext v
    by_cases hc : v._id = u._id <;> simp [hc]
  rw [hpred, hfind]
  simp

/-- C5 (amended): the code does NOT reject replay — a reset token that has
already authorized one successful password change still authorizes a second
one any time before its expiry: both complete-reset calls return 200, and
the second call replaces the stored secret again. -/
theorem C5_reset_token_replay_accepted
    (st : ServerState) (uid exp salt1 salt2 now1 now2 : Nat)
    (p1 p2 : String) (u : User)
    (hp1 : p1 ≠ "") (hp2 : p2 ≠ "")
    (hu : findUserById st (some uid) = some u)
    (h1 : now1 < exp) (h2 : now2 < exp) :
    (resetPassword st (some (.signed ⟨some uid, none, exp⟩ JWT_SECRET))
        (some p1) salt1 now1).1.status = 200 ∧
    (resetPassword
        (resetPassword st (some (.signed ⟨some uid, none, exp⟩ JWT_SECRET))
          (some p1) salt1 now1).2
        (some (.signed ⟨some uid, none, exp⟩ JWT_SECRET))
        (some p2) salt2 now2).1.status = 200 ∧
    findUserById
        (resetPassword
          (resetPassword st (some (.signed ⟨some uid, none, exp⟩ JWT_SECRET))
            (some p1) salt1 now1).2
          (some (.signed ⟨some uid, none, exp⟩ JWT_SECRET))
          (some p2) salt2 now2).2
        (some uid)
      = some { u with password := hashPassword p2 salt2 } := by
  rw [resetPassword_success st uid exp salt1 now1 p1 u hp1 hu h1]
  have hu2 := findUserById_after_reset st uid u (hashPassword p1 salt1) hu
  rw [resetPassword_success _ uid exp salt2 now2 p2 _ hp2 hu2 h2]
  exact ⟨rfl, rfl,
    findUserById_after_reset _ uid _ (hashPassword p2 salt2) hu2⟩

/-- C5 counterexample: on `st1`, the reset token for `user0` is accepted
twice — the first complete-reset succeeds, and the replayed second call also
succeeds and overwrites the password again, refuting "replay is rejected". -/
theorem C5_counterexample :
    (resetPassword st1 (some resetTok0) (some "p1") 7 100).1.status = 200 ∧
    (resetPassword (resetPassword st1 (some resetTok0) (some "p1") 7 100).2
        (some resetTok0) (some "p2") 8 200).1.status = 200 ∧
    (resetPassword (resetPassword st1 (some resetTok0) (some "p1") 7 100).2
        (some resetTok0) (some "p2") 8 200).2.users
      = [⟨0, "alice@example.com", hashPassword "p2" 8⟩] :=
  ⟨rfl, rfl, rfl⟩

/-- Witness for C5 (amended) at `st1`, `user0`, times 100 and 200. -/
theorem C5_witness :
    (resetPassword st1 (some (.signed ⟨some 0, none, 3600⟩ JWT_SECRET))
        (some "p1") 7 100).1.status = 200 ∧
    (resetPassword
        (resetPassword st1 (some (.signed ⟨some 0, none, 3600⟩ JWT_SECRET))
          (some "p1") 7 100).2
        (some (.signed ⟨some 0, none, 3600⟩ JWT_SECRET))
        (some "p2") 8 200).1.status = 200 ∧
    findUserById
        (resetPassword
          (resetPassword st1 (some (.signed ⟨some 0, none, 3600⟩ JWT_SECRET))
            (some "p1") 7 100).2
          (some (.signed ⟨some 0, none, 3600⟩ JWT_SECRET))
          (some "p2") 8 200).2
        (some 0)
      = some { user0 with password := hashPassword "p2" 8 } :=
  C5_reset_token_replay_accepted st1 0 3600 7 8 100 200 "p1" "p2" user0
    (by decide) (by decide) rfl (by decide) (by decide)

/-! ## C9 — list: ownership filter and ordering -/

/-- C9 (amended): for every state and identity, `list` returns exactly the
caller's notes — every returned note is owned by the caller, and the result
is a permutation of the owner-filtered store — sorted by creation time in
DESCENDING (non-strict) order; ties between equal creation times are
allowed, so the order is not strictly descending in general. -/
theorem C9_list_owned_and_sorted (st : ServerState) (uid : Nat) :
    (∀ n ∈ listNotes st uid, n.owner = uid) ∧
    List.Perm (listNotes st uid)
      (st.notes.filter (fun n => n.owner == uid)) ∧
    List.Sorted noteGE (listNotes st uid) := by
  refine ⟨?_, ?_, ?_⟩
  · intro n hn
    rw [listNotes, List.mem_insertionSort] at hn
    exact beq_iff_eq.mp (List.mem_filter.mp hn).2
  · exact List.perm_insertionSort noteGE _
  · exact List.sorted_insertionSort noteGE _

/-- Two notes of identity 0 created in the same second (for the C9
counterexample). -/
def stC9 : ServerState :=
  ⟨[], [⟨1, some "a", some "x", 0, 5⟩, ⟨2, some "b", some "y", 0, 5⟩], 0, 3⟩

/-- C9 counterexample: on `stC9`, `list` for identity 0 returns only notes
owned by identity 0, yet the sequence is NOT strictly descending in creation
time — the two notes share `createdAt = 5` — refuting the strictness part of
the claim. -/
theorem C9_counterexample :
    (∀ n ∈ listNotes stC9 0, n.owner = 0) ∧
    strictlyDescB (listNotes stC9 0) = false := by
  exact ⟨by decide, rfl⟩

end NotesFlow
